import Mathlib

/-!
Shallow embedding of `tor-daily-report.py` (a Tor relay health-report
script) and verification of its natural-language specification.

Modelling conventions:
* Python `datetime` values are modelled as `Int` (seconds); `strftime` is
  modelled abstractly as a function that tags the format string with the
  rendered timestamp — the properties verified here depend only on *which*
  timestamp is rendered, never on the calendar text.
* Python floats are modelled as `ℚ` (exact arithmetic; the script only
  divides by 1024 and by an uptime, so rounding of the binary floats does
  not affect any property proved here beyond the final 2-decimal display,
  which is modelled by `formatTwoDec`).
* Each external `stem` controller call is modelled as a field of the
  `Ctrl` oracle: calls that may raise are `Except String α` (the error
  carries the Python exception message), calls issued with a default
  (`get_info(key, default)` / `get_conf(key, default)`) are `Option α`
  (`none` means the library swallowed the failure and the default is
  used, which is stem's documented behaviour).
* Python dict fields that may be absent are `Option` fields of `Report`.
-/

set_option maxRecDepth 8000

/-- Python `str.join`: `joinSep sep l` is `sep.join(l)`. -/
def joinSep (sep : String) : List String → String
  | [] => ""
  | [x] => x
  | x :: y :: ys => x ++ sep ++ joinSep sep (y :: ys)

/-- Character for a single decimal digit `d < 10` (code point `48 + d`). -/
def digitChar (d : Nat) : Char := Char.ofNat (48 + d)

/-- Model of Python fixed-point rendering `f"{x:.2f}"`: round `x` to two
decimal places and print sign, integer part, a dot, and exactly two digit
characters.  (Python rounds the underlying binary float half-to-even; the
rounding mode is irrelevant to every property proved here.) -/
def formatTwoDec (q : ℚ) : String :=
  let n : Int := round (q * 100)
  let m : Nat := n.natAbs
  let ipart : String := (if n < 0 then "-" else "") ++ toString (m / 100)
  ipart ++ "." ++ String.mk [digitChar (m % 100 / 10), digitChar (m % 100 % 10)]

/-- Loop body of `format_bytes` (source lines 61–65): walk the unit list,
dividing by 1024 while the magnitude is at least 1024. -/
def format_bytes_go (q : ℚ) : List String → String
  | [] => formatTwoDec q ++ " PB"
  | u :: us => if |q| < 1024 then formatTwoDec q ++ " " ++ u else format_bytes_go (q / 1024) us

/-- `format_bytes` (source lines 59–65): format bytes into a human-readable
string over the unit sequence B, KB, MB, GB, TB, falling back to PB. -/
def format_bytes (num_bytes : ℚ) : String :=
  format_bytes_go num_bytes ["B", "KB", "MB", "GB", "TB"]

/-- `format_duration` (source lines 68–84): format seconds into a
human-readable duration.  Python `divmod` is floor division / floor
modulus, i.e. `Int.fdiv` / `Int.fmod`. -/
def format_duration (seconds : Int) : String :=
  let days := seconds.fdiv 86400
  let remainder := seconds.fmod 86400
  let hours := remainder.fdiv 3600
  let remainder2 := remainder.fmod 3600
  let minutes := remainder2.fdiv 60
  let secs := remainder2.fmod 60
  let parts : List String :=
    (if days > 0 then [toString days ++ "d"] else []) ++
    (if hours > 0 then [toString hours ++ "h"] else []) ++
    (if minutes > 0 then [toString minutes ++ "m"] else [])
  let parts := parts ++ (if secs > 0 ∨ parts = [] then [toString secs ++ "s"] else [])
  joinSep " " parts


/-- Configuration constant `RELAY_NICKNAME` (source line 49). -/
def RELAY_NICKNAME : String := "OnionPie"

/-- Configuration constant `MIN_CONNECTIONS_WARN` (source line 52). -/
def MIN_CONNECTIONS_WARN : Nat := 100

/-- Configuration constant `MIN_CONNECTIONS_CRIT` (source line 53). -/
def MIN_CONNECTIONS_CRIT : Nat := 50

/-- Model of Python `datetime.strftime`: the rendered text is the format
string tagged with the modelled timestamp.  Only which timestamp appears
matters for the verified properties, never the calendar text itself. -/
def strftime (t : Int) (fmt : String) : String := fmt ++ "|" ++ toString t

/-- The result of `controller.get_network_status(fingerprint)` on success
(the attributes the script reads: `flags`, `bandwidth`, `published`).
stem's `flags` may be `None`, hence `Option`. -/
structure NetworkStatus where
  flags : Option (List String)
  bandwidth : Int
  published : Int

/-- Oracle for one run of the collector: the outcome of every external
`stem` call the script makes, in the order the script makes them.
`Except String α` models a call that may raise (the `String` is the
exception message); `Option α` models a `get_info`/`get_conf` call made
with an explicit default, where stem returns the default on failure
(`none` = the call failed and the default is used). -/
structure Ctrl where
  connect : Except String Unit
  auth : Except String Unit
  versionQuery : Except String String
  uptimeQuery : Except String Int
  trafficReadQuery : Except String Int
  trafficWrittenQuery : Except String Int
  fingerprintQuery : Except String String
  nicknameConf : Option String
  addressQuery : Option String
  orPortConf : Option String
  circuitQuery : Except String String
  orconnStatusQuery : Option String
  networkStatusQuery : String → Except String NetworkStatus
  accountingEnabledQuery : Option String
  accountingBytesLeftQuery : Except String String
  accountingIntervalEndQuery : Except String String

/-- The report record assembled by `get_relay_report` (source lines
89–94 populate the four unconditional fields; everything else is set
later and may be absent, hence `Option`). -/
structure Report where
  generated : Int
  hostname : String
  warnings : List String
  errors : List String
  version : Option String := none
  uptime_seconds : Option Int := none
  uptime_human : Option String := none
  bytes_read : Option Int := none
  bytes_written : Option Int := none
  traffic_read_human : Option String := none
  traffic_written_human : Option String := none
  fingerprint : Option String := none
  nickname : Option String := none
  address : Option String := none
  or_port : Option String := none
  circuits_established : Option Bool := none
  connection_count : Option Nat := none
  flags : Option (List String) := none
  bandwidth : Option Int := none
  published : Option Int := none
  accounting : Option (String × String) := none

/-- Model of Python `str.strip()`: drop whitespace characters from both
ends of the string. -/
def pyStrip (s : String) : String :=
  String.mk (((s.data.dropWhile Char.isWhitespace).reverse.dropWhile Char.isWhitespace).reverse)

/-- Model of Python `str.split("\n")` as structural recursion over the
character list: split on every newline, keeping empty pieces (so the
empty string yields one empty piece, as in Python). -/
def splitNl (cur : List Char) : List Char → List String
  | [] => [String.mk cur.reverse]
  | ch :: cs => if ch = '\n' then String.mk cur.reverse :: splitNl [] cs
                else splitNl (ch :: cur) cs

/-- Connection count (source lines 125–127): number of non-empty lines of
the stripped `orconn-status` text (Python line truthiness = non-empty). -/
def countConnections (orconn_status : String) : Nat :=
  ((splitNl [] (pyStrip orconn_status).data).filter (fun line => decide (line ≠ ""))).length

/-- Connection-threshold warnings (source lines 130–139): the list of
warning strings the threshold check appends to `report["warnings"]`. -/
def connectionWarnings (connection_count : Nat) : List String :=
  if connection_count < MIN_CONNECTIONS_CRIT then
    ["⚠️  CRITICAL: Only " ++ toString connection_count ++ " connections (threshold: " ++
      toString MIN_CONNECTIONS_CRIT ++ ")"]
  else if connection_count < MIN_CONNECTIONS_WARN then
    ["⚠️  WARNING: Only " ++ toString connection_count ++ " connections (threshold: " ++
      toString MIN_CONNECTIONS_WARN ++ ")"]
  else []

/-- Expected-flag check (source lines 151–159): the list of warning
strings appended to `report["warnings"]`.  The Python guard
`report.get("flags") and isinstance(report["flags"], list)` holds exactly
when the flags list is non-empty (it is always a list at this point).
The Python set difference `{"Running", "Valid"} - current_flags` is
modelled as a filter over the expected list, fixing the (unspecified)
Python set iteration order to the listing order. -/
def missingFlagWarnings (flags : List String) : List String :=
  if flags = [] then []
  else
    let missing := ["Running", "Valid"].filter (fun f => decide (f ∉ flags))
    if missing = [] then []
    else ["⚠️  Missing expected flags: " ++ joinSep ", " missing]

/-- The body of the `with Controller.from_port(...)` block of
`get_relay_report` (source lines 96–170), with the trailing state of the
report at every point.  Returns the report as populated so far, paired
with `some e` when an uncaught exception with message `e` escapes the
block (to be caught by the outer handler at line 172) and `none` when the
block completes. -/
def collectorBody (t : Int) (host : String) (c : Ctrl) : Report × Option String :=
  let r : Report := { generated := t, hostname := host, warnings := [], errors := [] }
  match c.connect with
  | .error e => (r, some e)
  | .ok _ =>
  match c.auth with
  | .error e => (r, some e)
  | .ok _ =>
  match c.versionQuery with
  | .error e => (r, some e)
  | .ok v =>
  let r := { r with version := some v }
  match c.uptimeQuery with
  | .error e => (r, some e)
  | .ok up =>
  let r := { r with uptime_seconds := some up, uptime_human := some (format_duration up) }
  match c.trafficReadQuery with
  | .error e => (r, some e)
  | .ok br =>
  let r := { r with bytes_read := some br }
  match c.trafficWrittenQuery with
  | .error e => (r, some e)
  | .ok bw =>
  let r := { r with bytes_written := some bw,
                    traffic_read_human := some (format_bytes (br : ℚ)),
                    traffic_written_human := some (format_bytes (bw : ℚ)) }
  match c.fingerprintQuery with
  | .error e => (r, some e)
  | .ok fp =>
  let r := { r with fingerprint := some fp,
                    nickname := some (c.nicknameConf.getD RELAY_NICKNAME),
                    address := some (c.addressQuery.getD "unknown"),
                    or_port := some (c.orPortConf.getD "9001") }
  match c.circuitQuery with
  | .error e => (r, some e)
  | .ok ce =>
  let r := { r with circuits_established := some (ce == "1") }
  let connection_count := countConnections (c.orconnStatusQuery.getD "")
  let r := { r with connection_count := some connection_count,
                    warnings := r.warnings ++ connectionWarnings connection_count }
  let r :=
    match c.networkStatusQuery fp with
    | .ok ns =>
        { r with flags := some (ns.flags.getD []),
                 bandwidth := some ns.bandwidth,
                 published := some ns.published }
    | .error e =>
        { r with flags := some ["(unable to retrieve)"],
                 errors := r.errors ++ ["Could not get network status: " ++ e] }
  let r := { r with warnings := r.warnings ++ missingFlagWarnings (r.flags.getD []) }
  -- Source lines 162–170: the accounting sub-record is attached only when
  -- accounting is enabled and both queries succeed; a bare `except: pass`
  -- swallows every failure, leaving the field absent.  Since the field is
  -- absent before this step, writing the computed optional value is the
  -- same as Python's conditional assignment.
  let accounting_enabled := c.accountingEnabledQuery.getD "0"
  let acct : Option (String × String) :=
    if accounting_enabled = "1" then
      match c.accountingBytesLeftQuery, c.accountingIntervalEndQuery with
      | .ok bl, .ok ie => some (bl, ie)
      | _, _ => none
    else none
  let r := { r with accounting := acct }
  (r, none)

/-- `get_relay_report` (source lines 87–175): run the collection body; an
uncaught exception `e` is caught by the outer handler (line 172), which
appends the connect-failure error and returns the report as populated so
far.  Totality of this function is the model of the contract that
`get_relay_report` never raises. -/
def get_relay_report (t : Int) (host : String) (c : Ctrl) : Report :=
  match collectorBody t host c with
  | (r, none) => r
  | (r, some e) => { r with errors := r.errors ++ ["Failed to connect to Tor control port: " ++ e] }

/-- Model of Python `f"{report.get(key, 'N/A')}"` for an optional field:
render the value if present, else the placeholder. -/
def orNA [ToString α] (o : Option α) : String :=
  match o with
  | some x => toString x
  | none => "N/A"

/-- Horizontal rule `"=" * 60` (source lines 183 and 187). -/
def eqRule60 : String := String.mk (List.replicate 60 '=')

/-- Horizontal rule `"-" * 40` (section underline). -/
def dashRule40 : String := String.mk (List.replicate 40 '-')

/-- Horizontal rule `"-" * 60` (footer, source line 258). -/
def dashRule60 : String := String.mk (List.replicate 60 '-')

/-- Naive substring search over character lists: true when `pat` occurs
contiguously in the second list. -/
def hasSub (pat : List Char) : List Char → Bool
  | [] => pat.isEmpty
  | c :: cs => pat.isPrefixOf (c :: cs) || hasSub pat cs

/-- Model of the Python substring test `needle in hay`. -/
def pyContains (hay needle : String) : Bool := hasSub needle.data hay.data

/-- Header block of `format_report_text` (source lines 183–188). -/
def headerLines (r : Report) : List String :=
  [eqRule60,
   "  TOR RELAY REPORT: " ++ r.nickname.getD "Unknown",
   "  Generated: " ++ strftime r.generated "%Y-%m-%d %H:%M:%S",
   "  Host: " ++ r.hostname,
   eqRule60,
   ""]

/-- Alerts section of `format_report_text` (source lines 191–196),
emitted only when the warning list is non-empty. -/
def warningLines (r : Report) : List String :=
  if r.warnings = [] then []
  else ["ALERTS", dashRule40] ++ r.warnings ++ [""]

/-- Errors section of `format_report_text` (source lines 199–204),
emitted only when the error list is non-empty; each error gets a failure
marker. -/
def errorLines (r : Report) : List String :=
  if r.errors = [] then []
  else ["ERRORS", dashRule40] ++ r.errors.map (fun e => "❌ " ++ e) ++ [""]

/-- Status section (source lines 210–217). -/
def statusLines (r : Report) : List String :=
  ["STATUS", dashRule40,
   "  Circuits:      " ++
     (if r.circuits_established.getD false then "✅ Established" else "❌ NOT Established"),
   "  Connections:   " ++ orNA r.connection_count,
   "  Uptime:        " ++ orNA r.uptime_human,
   "  Tor Version:   " ++ orNA r.version,
   ""]

/-- Relay-identity section (source lines 220–225). -/
def identityLines (r : Report) : List String :=
  ["RELAY IDENTITY", dashRule40,
   "  Nickname:      " ++ orNA r.nickname,
   "  Address:       " ++ orNA r.address ++ ":" ++ orNA r.or_port,
   "  Fingerprint:   " ++ orNA r.fingerprint,
   ""]

/-- Consensus-flags section (source lines 228–235). -/
def flagLines (r : Report) : List String :=
  ["CONSENSUS FLAGS", dashRule40] ++
  (if r.flags.getD [] = [] then ["  (none)"]
   else ["  " ++ joinSep ", " (r.flags.getD [])]) ++
  [""]

/-- Traffic section (source lines 237–255): the header carries the
computed restart timestamp (generation time minus uptime) only when
uptime is positive, and the average-rate lines (cumulative bytes divided
by uptime, rendered as bytes per second) appear only when uptime is
positive. -/
def trafficLines (r : Report) : List String :=
  (if r.uptime_seconds.getD 0 > 0 then
     ["TRAFFIC SINCE RESTART (" ++
        strftime (r.generated - r.uptime_seconds.getD 0) "%m/%d/%Y %H:%M" ++ ")"]
   else ["TRAFFIC SINCE RESTART"]) ++
  [dashRule40,
   "  Read:          " ++ orNA r.traffic_read_human,
   "  Written:       " ++ orNA r.traffic_written_human] ++
  (if r.uptime_seconds.getD 0 > 0 then
     ["  Avg Read:      " ++
        format_bytes ((r.bytes_read.getD 0 : ℚ) / (r.uptime_seconds.getD 0 : ℚ)) ++ "/s",
      "  Avg Write:     " ++
        format_bytes ((r.bytes_written.getD 0 : ℚ) / (r.uptime_seconds.getD 0 : ℚ)) ++ "/s"]
   else []) ++
  [""]

/-- Footer (source lines 258–261). -/
def footerLines (r : Report) : List String :=
  [dashRule60,
   "Relay search: https://metrics.torproject.org/rs.html#details/" ++ r.fingerprint.getD "",
   ""]

/-- `format_report_text` (source lines 178–263).  The short-circuit at
line 206 tests `"Failed to connect" in str(report["errors"])`; because
the needle contains no quote, comma, bracket or backslash characters,
membership in the Python `repr` of the list is equivalent to membership
in some element, which is how it is modelled here (the `errors` list
being non-empty is implied by a member containing the needle). -/
def format_report_text (r : Report) : String :=
  let lines := headerLines r ++ warningLines r ++ errorLines r
  if r.errors.any (fun e => pyContains e "Failed to connect") then
    joinSep "\n" lines
  else
    joinSep "\n" (lines ++ statusLines r ++ identityLines r ++ flagLines r ++
                  trafficLines r ++ footerLines r)

/-- Subject-line indicator chosen in `main` (source lines 302–307):
warnings take precedence, then errors, else all-clear. -/
def status_emoji (r : Report) : String :=
  if r.warnings ≠ [] then "⚠️"
  else if r.errors ≠ [] then "❌"
  else "✅"

/-- Subject line built in `main` (source line 309). -/
def subjectLine (r : Report) : String :=
  status_emoji r ++ " Tor Relay Report: " ++ r.nickname.getD RELAY_NICKNAME

/-- A concrete oracle on which every external call succeeds, the relay
has 120 peer connections (no threshold warning), and the consensus entry
carries the Running and Valid flags (no flag warning). -/
def ctrlOk : Ctrl where
  connect := .ok ()
  auth := .ok ()
  versionQuery := .ok "0.4.8.12"
  uptimeQuery := .ok 3661
  trafficReadQuery := .ok 1000
  trafficWrittenQuery := .ok 2000
  fingerprintQuery := .ok "AAAA1111"
  nicknameConf := some "OnionPie"
  addressQuery := some "198.51.100.7"
  orPortConf := some "9001"
  circuitQuery := .ok "1"
  orconnStatusQuery := some (joinSep "\n" (List.replicate 120 "conn"))
  networkStatusQuery := fun _ => .ok { flags := some ["Running", "Valid"], bandwidth := 5000, published := 0 }
  accountingEnabledQuery := some "0"
  accountingBytesLeftQuery := .ok "123"
  accountingIntervalEndQuery := .ok "soon"


/-- C5: the connection-count threshold check emits at most one warning,
chosen in order: below the critical threshold it appends exactly the
CRITICAL-tier message naming the count and the critical threshold (never
also the WARNING tier); otherwise below the warning threshold it appends
exactly the WARNING-tier message naming the count and the warning
threshold; otherwise it appends nothing.  `connectionWarnings` is the
list the check (source lines 130–139) appends to the report's warnings. -/
theorem C5_theorem (connection_count : Nat) :
    (connection_count < MIN_CONNECTIONS_CRIT →
      connectionWarnings connection_count =
        ["⚠️  CRITICAL: Only " ++ toString connection_count ++ " connections (threshold: " ++
          toString MIN_CONNECTIONS_CRIT ++ ")"]) ∧
    (MIN_CONNECTIONS_CRIT ≤ connection_count → connection_count < MIN_CONNECTIONS_WARN →
      connectionWarnings connection_count =
        ["⚠️  WARNING: Only " ++ toString connection_count ++ " connections (threshold: " ++
          toString MIN_CONNECTIONS_WARN ++ ")"]) ∧
    (MIN_CONNECTIONS_WARN ≤ connection_count → connectionWarnings connection_count = []) ∧
    (connectionWarnings connection_count).length ≤ 1 := by
  refine ⟨fun h => ?_, fun h1 h2 => ?_, fun h => ?_, ?_⟩
  · simp [connectionWarnings, h]
  · rw [connectionWarnings, if_neg (by omega), if_pos h2]
  · rw [connectionWarnings, if_neg ?_, if_neg ?_] <;>
      simp [MIN_CONNECTIONS_CRIT, MIN_CONNECTIONS_WARN] at h ⊢ <;> omega
  · rw [connectionWarnings]
    split
    · simp
    · split <;> simp

/-- C5 witness: a count of 42 is below the critical threshold 50 and
yields exactly the critical-tier warning. -/
theorem C5_witness :
    connectionWarnings 42 =
      ["⚠️  CRITICAL: Only " ++ toString 42 ++ " connections (threshold: " ++
        toString MIN_CONNECTIONS_CRIT ++ ")"] :=
  (C5_theorem 42).1 (by decide)

/-- C9: the subject-line indicator is chosen solely from the report's
diagnostic lists, with warnings taking precedence over errors: a
non-empty warning list gives the warning indicator, else a non-empty
error list gives the error indicator, else the all-clear indicator; two
reports with the same diagnostic lists get the same indicator regardless
of any other field (and hence regardless of the rendered body). -/
theorem C9_theorem (r : Report) :
    (r.warnings ≠ [] → status_emoji r = "⚠️") ∧
    (r.warnings = [] → r.errors ≠ [] → status_emoji r = "❌") ∧
    (r.warnings = [] → r.errors = [] → status_emoji r = "✅") ∧
    (∀ r' : Report, r.warnings = r'.warnings → r.errors = r'.errors →
      status_emoji r = status_emoji r') := by
  refine ⟨fun hw => ?_, fun hw he => ?_, fun hw he => ?_, fun r' hw he => ?_⟩
  · simp [status_emoji, hw]
  · simp [status_emoji, hw, he]
  · simp [status_emoji, hw, he]
  · simp [status_emoji, hw, he]

/-- C9 witness: a report with both lists non-empty gets the warning
indicator (warnings take precedence over errors). -/
theorem C9_witness :
    status_emoji { generated := 0, hostname := "pi", warnings := ["w"], errors := ["e"] } = "⚠️" :=
  (C9_theorem _).1 (by decide)

/-- C2 counterexample: after a failed consensus lookup the report's flags
are the single-element unavailable placeholder, yet the flag-completeness
check still runs on it and appends a missing-flags warning naming both
Running and Valid — so the check is not restricted to genuine flag
lists, contrary to the claim. -/
theorem C2_counterexample :
    (get_relay_report 7 "pi" { ctrlOk with networkStatusQuery := fun _ => .error "timeout" }).flags
      = some ["(unable to retrieve)"] ∧
    "⚠️  Missing expected flags: Running, Valid" ∈
      (get_relay_report 7 "pi" { ctrlOk with networkStatusQuery := fun _ => .error "timeout" }).warnings := by
  exact ⟨rfl, by decide⟩

/-- C2 (amended): the flag-completeness check is skipped exactly when the
flags list is empty; whenever the list is non-empty — including the
single-element unavailable placeholder — it appends a warning if and only
if one of Running, Valid is absent, and the warning names exactly the
missing expected flags; on the placeholder it names both Running and
Valid. -/
theorem C2_theorem (flags : List String) :
    (flags = [] → missingFlagWarnings flags = []) ∧
    (flags ≠ [] →
      (missingFlagWarnings flags = [] ↔ "Running" ∈ flags ∧ "Valid" ∈ flags) ∧
      missingFlagWarnings flags =
        (if "Running" ∈ flags ∧ "Valid" ∈ flags then []
         else ["⚠️  Missing expected flags: " ++
                joinSep ", " (["Running", "Valid"].filter (fun f => decide (f ∉ flags)))])) ∧
    missingFlagWarnings ["(unable to retrieve)"] = ["⚠️  Missing expected flags: Running, Valid"] := by
  refine ⟨fun h => by simp [missingFlagWarnings, h], fun h => ?_, by decide⟩
  by_cases hR : "Running" ∈ flags <;> by_cases hV : "Valid" ∈ flags <;>
    simp [missingFlagWarnings, h, hR, hV, joinSep]

/-- C2 witness: flags containing only Running yield a warning naming
exactly Valid. -/
theorem C2_witness :
    missingFlagWarnings ["Running"] = ["⚠️  Missing expected flags: Valid"] := by
  have h := C2_theorem ["Running"]
  rw [(h.2.1 (by decide)).2]
  decide

/-- C1 counterexample: when the single uptime query fails (everything
else would succeed), collection of the remaining fields does not proceed
— fingerprint, connection count and flags are all left unset and the run
ends with the catch-all connect error — so the field-fetching calls are
not individually fault-isolated as claimed. -/
theorem C1_counterexample :
    (get_relay_report 7 "pi" { ctrlOk with uptimeQuery := .error "boom" }).version = some "0.4.8.12" ∧
    (get_relay_report 7 "pi" { ctrlOk with uptimeQuery := .error "boom" }).fingerprint = none ∧
    (get_relay_report 7 "pi" { ctrlOk with uptimeQuery := .error "boom" }).connection_count = none ∧
    (get_relay_report 7 "pi" { ctrlOk with uptimeQuery := .error "boom" }).flags = none ∧
    (get_relay_report 7 "pi" { ctrlOk with uptimeQuery := .error "boom" }).errors
      = ["Failed to connect to Tor control port: boom"] :=
  ⟨rfl, rfl, rfl, rfl, rfl⟩

/-- C1 (amended): only the consensus network-status lookup and the
accounting queries are wrapped in their own handlers, and the nickname,
address, OR-port and connection-list queries are issued with library
defaults, so only those are fault-isolated; a failure of the version,
uptime, traffic-counter, fingerprint or circuit-status query aborts the
rest of collection and is recorded by the catch-all connect error.
Concretely: when every query up to the circuit status succeeds, a failing
consensus lookup leaves every previously collected field populated,
records its own error, and does not abort collection, and even with both
accounting queries failing the run still completes with all collected
fields and no extra error; whereas a failure of the version, uptime,
traffic-read, traffic-written, fingerprint or circuit-status query each
leaves the fields after it unset and ends the run with exactly the
catch-all connect error. -/
theorem C1_theorem (t : Int) (host : String) (c : Ctrl) (v : String) (up br bw : Int)
    (fp ce e : String)
    (hcon : c.connect = .ok ()) (hauth : c.auth = .ok ())
    (hv : c.versionQuery = .ok v) (hu : c.uptimeQuery = .ok up)
    (hr : c.trafficReadQuery = .ok br) (hw : c.trafficWrittenQuery = .ok bw)
    (hf : c.fingerprintQuery = .ok fp) (hce : c.circuitQuery = .ok ce)
    (hns : c.networkStatusQuery fp = .error e) :
    (get_relay_report t host c).version = some v ∧
    (get_relay_report t host c).uptime_seconds = some up ∧
    (get_relay_report t host c).bytes_read = some br ∧
    (get_relay_report t host c).bytes_written = some bw ∧
    (get_relay_report t host c).fingerprint = some fp ∧
    (get_relay_report t host c).nickname = some (c.nicknameConf.getD RELAY_NICKNAME) ∧
    (get_relay_report t host c).address = some (c.addressQuery.getD "unknown") ∧
    (get_relay_report t host c).or_port = some (c.orPortConf.getD "9001") ∧
    (get_relay_report t host c).circuits_established = some (ce == "1") ∧
    (get_relay_report t host c).connection_count
      = some (countConnections (c.orconnStatusQuery.getD "")) ∧
    (get_relay_report t host c).flags = some ["(unable to retrieve)"] ∧
    ("Could not get network status: " ++ e) ∈ (get_relay_report t host c).errors ∧
    (∀ e' : String,
      (get_relay_report t host { c with versionQuery := .error e' }).version = none ∧
      (get_relay_report t host { c with versionQuery := .error e' }).fingerprint = none ∧
      (get_relay_report t host { c with versionQuery := .error e' }).errors
        = ["Failed to connect to Tor control port: " ++ e']) ∧
    (∀ e' : String,
      (get_relay_report t host { c with uptimeQuery := .error e' }).version = some v ∧
      (get_relay_report t host { c with uptimeQuery := .error e' }).uptime_seconds = none ∧
      (get_relay_report t host { c with uptimeQuery := .error e' }).fingerprint = none ∧
      (get_relay_report t host { c with uptimeQuery := .error e' }).errors
        = ["Failed to connect to Tor control port: " ++ e']) ∧
    (∀ e' : String,
      (get_relay_report t host { c with trafficReadQuery := .error e' }).version = some v ∧
      (get_relay_report t host { c with trafficReadQuery := .error e' }).bytes_read = none ∧
      (get_relay_report t host { c with trafficReadQuery := .error e' }).fingerprint = none ∧
      (get_relay_report t host { c with trafficReadQuery := .error e' }).errors
        = ["Failed to connect to Tor control port: " ++ e']) ∧
    (∀ e' : String,
      (get_relay_report t host { c with trafficWrittenQuery := .error e' }).bytes_read = some br ∧
      (get_relay_report t host { c with trafficWrittenQuery := .error e' }).bytes_written = none ∧
      (get_relay_report t host { c with trafficWrittenQuery := .error e' }).fingerprint = none ∧
      (get_relay_report t host { c with trafficWrittenQuery := .error e' }).errors
        = ["Failed to connect to Tor control port: " ++ e']) ∧
    (∀ e' : String,
      (get_relay_report t host { c with fingerprintQuery := .error e' }).bytes_written = some bw ∧
      (get_relay_report t host { c with fingerprintQuery := .error e' }).fingerprint = none ∧
      (get_relay_report t host { c with fingerprintQuery := .error e' }).connection_count = none ∧
      (get_relay_report t host { c with fingerprintQuery := .error e' }).errors
        = ["Failed to connect to Tor control port: " ++ e']) ∧
    (∀ e' : String,
      (get_relay_report t host { c with circuitQuery := .error e' }).fingerprint = some fp ∧
      (get_relay_report t host { c with circuitQuery := .error e' }).circuits_established = none ∧
      (get_relay_report t host { c with circuitQuery := .error e' }).connection_count = none ∧
      (get_relay_report t host { c with circuitQuery := .error e' }).flags = none ∧
      (get_relay_report t host { c with circuitQuery := .error e' }).errors
        = ["Failed to connect to Tor control port: " ++ e']) ∧
    (∀ e1 e2 : String,
      (get_relay_report t host { c with accountingEnabledQuery := some "1", accountingBytesLeftQuery := .error e1, accountingIntervalEndQuery := .error e2 }).accounting = none ∧
      (get_relay_report t host { c with accountingEnabledQuery := some "1", accountingBytesLeftQuery := .error e1, accountingIntervalEndQuery := .error e2 }).flags
        = some ["(unable to retrieve)"] ∧
      (get_relay_report t host { c with accountingEnabledQuery := some "1", accountingBytesLeftQuery := .error e1, accountingIntervalEndQuery := .error e2 }).connection_count
        = some (countConnections (c.orconnStatusQuery.getD "")) ∧
      (get_relay_report t host { c with accountingEnabledQuery := some "1", accountingBytesLeftQuery := .error e1, accountingIntervalEndQuery := .error e2 }).errors
        = ["Could not get network status: " ++ e]) := by
  refine ⟨?_, ?_, ?_, ?_, ?_, ?_, ?_, ?_, ?_, ?_, ?_, ?_,
    fun e' => ⟨?_, ?_, ?_⟩, fun e' => ⟨?_, ?_, ?_, ?_⟩, fun e' => ⟨?_, ?_, ?_, ?_⟩,
    fun e' => ⟨?_, ?_, ?_, ?_⟩, fun e' => ⟨?_, ?_, ?_, ?_⟩, fun e' => ⟨?_, ?_, ?_, ?_, ?_⟩,
    fun e1 e2 => ⟨?_, ?_, ?_, ?_⟩⟩ <;>
    simp [get_relay_report, collectorBody, hcon, hauth, hv, hu, hr, hw, hf, hce, hns]

/-- C1 witness: with every query up to the circuit status succeeding and
the consensus lookup failing, the collected fields survive and the lookup
failure is recorded without aborting. -/
theorem C1_witness :
    (get_relay_report 7 "pi" { ctrlOk with networkStatusQuery := fun _ => .error "down" }).flags
      = some ["(unable to retrieve)"] ∧
    (get_relay_report 7 "pi" { ctrlOk with networkStatusQuery := fun _ => .error "down" }).connection_count
      = some 120 ∧
    "Could not get network status: down" ∈
      (get_relay_report 7 "pi" { ctrlOk with networkStatusQuery := fun _ => .error "down" }).errors := by
  have h := C1_theorem 7 "pi" { ctrlOk with networkStatusQuery := fun _ => .error "down" }
    "0.4.8.12" 3661 1000 2000 "AAAA1111" "1" "down" rfl rfl rfl rfl rfl rfl rfl rfl rfl
  refine ⟨h.2.2.2.2.2.2.2.2.2.2.1, ?_, h.2.2.2.2.2.2.2.2.2.2.2.1⟩
  rw [h.2.2.2.2.2.2.2.2.2.1]
  decide

/-- C3 counterexample: with accounting enabled and the bytes-left query
failing, `get_relay_report` swallows the failure silently — the returned
error list is empty and no accounting record is attached — so not every
mid-collection query failure is captured as an entry in the error list. -/
theorem C3_counterexample :
    ({ ctrlOk with accountingEnabledQuery := some "1", accountingBytesLeftQuery := .error "acct boom" } : Ctrl).accountingBytesLeftQuery
      = .error "acct boom" ∧
    (get_relay_report 7 "pi" { ctrlOk with accountingEnabledQuery := some "1", accountingBytesLeftQuery := .error "acct boom" }).errors = [] ∧
    (get_relay_report 7 "pi" { ctrlOk with accountingEnabledQuery := some "1", accountingBytesLeftQuery := .error "acct boom" }).accounting = none :=
  ⟨rfl, by decide, rfl⟩

/-- C3 (amended): `get_relay_report` never raises (it is a total
function of the call outcomes); a transport-level failure to establish
the session, or an authentication failure, records exactly one
"Failed to connect to Tor control port" error and returns the report with
no fields populated besides generation time, host name, warnings and
errors; a failure of any non-defaulted mid-collection query (version,
uptime, traffic counters, fingerprint, circuit status) likewise ends the
run with that single catch-all entry as the whole error list; and when
collection reaches a successful consensus lookup, the error list is empty
regardless of the accounting-query outcomes — accounting failures (and
failures of queries issued with defaults) are swallowed without an error
entry. -/
theorem C3_theorem (t : Int) (host : String) :
    (∀ (c : Ctrl) (e : String), c.connect = .error e →
      get_relay_report t host c =
        { generated := t, hostname := host, warnings := [],
          errors := ["Failed to connect to Tor control port: " ++ e] }) ∧
    (∀ (c : Ctrl) (e : String), c.connect = .ok () → c.auth = .error e →
      get_relay_report t host c =
        { generated := t, hostname := host, warnings := [],
          errors := ["Failed to connect to Tor control port: " ++ e] }) ∧
    (∀ (c : Ctrl) (e : String), c.connect = .ok () → c.auth = .ok () →
      c.versionQuery = .error e →
      (get_relay_report t host c).errors = ["Failed to connect to Tor control port: " ++ e]) ∧
    (∀ (c : Ctrl) (v e : String), c.connect = .ok () → c.auth = .ok () →
      c.versionQuery = .ok v → c.uptimeQuery = .error e →
      (get_relay_report t host c).errors = ["Failed to connect to Tor control port: " ++ e]) ∧
    (∀ (c : Ctrl) (v : String) (up : Int) (e : String), c.connect = .ok () → c.auth = .ok () →
      c.versionQuery = .ok v → c.uptimeQuery = .ok up → c.trafficReadQuery = .error e →
      (get_relay_report t host c).errors = ["Failed to connect to Tor control port: " ++ e]) ∧
    (∀ (c : Ctrl) (v : String) (up br : Int) (e : String), c.connect = .ok () → c.auth = .ok () →
      c.versionQuery = .ok v → c.uptimeQuery = .ok up → c.trafficReadQuery = .ok br →
      c.trafficWrittenQuery = .error e →
      (get_relay_report t host c).errors = ["Failed to connect to Tor control port: " ++ e]) ∧
    (∀ (c : Ctrl) (v : String) (up br bw : Int) (e : String), c.connect = .ok () → c.auth = .ok () →
      c.versionQuery = .ok v → c.uptimeQuery = .ok up → c.trafficReadQuery = .ok br →
      c.trafficWrittenQuery = .ok bw → c.fingerprintQuery = .error e →
      (get_relay_report t host c).errors = ["Failed to connect to Tor control port: " ++ e]) ∧
    (∀ (c : Ctrl) (v : String) (up br bw : Int) (fp e : String), c.connect = .ok () → c.auth = .ok () →
      c.versionQuery = .ok v → c.uptimeQuery = .ok up → c.trafficReadQuery = .ok br →
      c.trafficWrittenQuery = .ok bw → c.fingerprintQuery = .ok fp → c.circuitQuery = .error e →
      (get_relay_report t host c).errors = ["Failed to connect to Tor control port: " ++ e]) ∧
    (∀ (c : Ctrl) (v : String) (up br bw : Int) (fp ce : String) (ns : NetworkStatus),
      c.connect = .ok () → c.auth = .ok () → c.versionQuery = .ok v →
      c.uptimeQuery = .ok up → c.trafficReadQuery = .ok br →
      c.trafficWrittenQuery = .ok bw → c.fingerprintQuery = .ok fp →
      c.circuitQuery = .ok ce → c.networkStatusQuery fp = .ok ns →
      (get_relay_report t host c).errors = []) := by
  refine ⟨fun c e h => ?_, fun c e h1 h2 => ?_, fun c e h1 h2 h3 => ?_,
    fun c v e h1 h2 h3 h4 => ?_, fun c v up e h1 h2 h3 h4 h5 => ?_,
    fun c v up br e h1 h2 h3 h4 h5 h6 => ?_, fun c v up br bw e h1 h2 h3 h4 h5 h6 h7 => ?_,
    fun c v up br bw fp e h1 h2 h3 h4 h5 h6 h7 h8 => ?_,
    fun c v up br bw fp ce ns h1 h2 h3 h4 h5 h6 h7 h8 h9 => ?_⟩ <;>
    simp [get_relay_report, collectorBody, *]

/-- C3 witness: a concrete transport-level connection failure produces
exactly the connect error and an otherwise unpopulated report. -/
theorem C3_witness :
    get_relay_report 7 "pi" { ctrlOk with connect := .error "refused" } =
      { generated := 7, hostname := "pi", warnings := [],
        errors := ["Failed to connect to Tor control port: refused"] } :=
  (C3_theorem 7 "pi").1 _ "refused" rfl

/-- C4: whenever some entry of the report's error list contains the
failed-initial-connection substring, the formatted document is exactly
the header, alerts and errors sections — rendering terminates immediately
after the errors section, and no STATUS, RELAY IDENTITY, CONSENSUS FLAGS,
TRAFFIC or footer section follows. -/
theorem C4_theorem (r : Report) (err : String) (hmem : err ∈ r.errors)
    (hsub : pyContains err "Failed to connect" = true) :
    format_report_text r = joinSep "\n" (headerLines r ++ warningLines r ++ errorLines r) := by
  have hany : r.errors.any (fun e => pyContains e "Failed to connect") = true :=
    List.any_eq_true.mpr ⟨err, hmem, hsub⟩
  simp [format_report_text, hany]

/-- Concrete report whose error list holds the connect-failure text. -/
def rConnFail : Report :=
  { generated := 7, hostname := "pi", warnings := [],
    errors := ["Failed to connect to Tor control port: refused"] }

/-- C4 witness: on a concrete report carrying the connect-failure error,
the rendered document stops after the errors section. -/
theorem C4_witness :
    format_report_text rConnFail =
      joinSep "\n" (headerLines rConnFail ++ warningLines rConnFail ++ errorLines rConnFail) :=
  C4_theorem rConnFail "Failed to connect to Tor control port: refused" (by decide) (by decide)

/-- C8: the traffic section's header carries the restart timestamp
(generation time minus uptime seconds) exactly when uptime is positive,
and exactly then the section also shows average read and write rates —
each the corresponding cumulative byte counter divided by the uptime,
rendered as a human byte value suffixed "/s"; with uptime not positive
the header is bare and no rate line (hence no division) appears. -/
theorem C8_theorem (r : Report) :
    (0 < r.uptime_seconds.getD 0 →
      trafficLines r =
        ["TRAFFIC SINCE RESTART (" ++
           strftime (r.generated - r.uptime_seconds.getD 0) "%m/%d/%Y %H:%M" ++ ")",
         dashRule40,
         "  Read:          " ++ orNA r.traffic_read_human,
         "  Written:       " ++ orNA r.traffic_written_human,
         "  Avg Read:      " ++
           format_bytes ((r.bytes_read.getD 0 : ℚ) / (r.uptime_seconds.getD 0 : ℚ)) ++ "/s",
         "  Avg Write:     " ++
           format_bytes ((r.bytes_written.getD 0 : ℚ) / (r.uptime_seconds.getD 0 : ℚ)) ++ "/s",
         ""]) ∧
    (r.uptime_seconds.getD 0 ≤ 0 →
      trafficLines r =
        ["TRAFFIC SINCE RESTART",
         dashRule40,
         "  Read:          " ++ orNA r.traffic_read_human,
         "  Written:       " ++ orNA r.traffic_written_human,
         ""]) := by
  constructor
  · intro h
    simp [trafficLines, h]
  · intro h
    simp [trafficLines, not_lt.mpr h]

/-- Concrete report with a positive uptime for the C8 witness. -/
def rTraffic : Report :=
  { generated := 1000, hostname := "pi", warnings := [], errors := [],
    uptime_seconds := some 100, bytes_read := some 5000, bytes_written := some 6000,
    traffic_read_human := some "4.88 KB", traffic_written_human := some "5.86 KB" }

/-- C8 witness: with uptime 100, the header carries the restart timestamp
(generation time minus 100) and both average-rate lines appear. -/
theorem C8_witness :
    trafficLines rTraffic =
      ["TRAFFIC SINCE RESTART (" ++
         strftime (rTraffic.generated - rTraffic.uptime_seconds.getD 0) "%m/%d/%Y %H:%M" ++ ")",
       dashRule40,
       "  Read:          " ++ orNA rTraffic.traffic_read_human,
       "  Written:       " ++ orNA rTraffic.traffic_written_human,
       "  Avg Read:      " ++
         format_bytes ((rTraffic.bytes_read.getD 0 : ℚ) / (rTraffic.uptime_seconds.getD 0 : ℚ)) ++ "/s",
       "  Avg Write:     " ++
         format_bytes ((rTraffic.bytes_written.getD 0 : ℚ) / (rTraffic.uptime_seconds.getD 0 : ℚ)) ++ "/s",
       ""] :=
  (C8_theorem rTraffic).1 (by decide)

/-- C10: on every outcome of the external calls, the collector's record
carries the generation timestamp and host name it was created with, and
its warnings and errors fields are always genuine lists (structurally, by
the `Report` type); consequently the formatter's unconditional header —
which reads the generation timestamp and host name — always renders, as
the document is the header block followed by the remaining lines. -/
theorem C10_theorem (t : Int) (host : String) (c : Ctrl) :
    (get_relay_report t host c).generated = t ∧
    (get_relay_report t host c).hostname = host ∧
    headerLines (get_relay_report t host c) =
      [eqRule60,
       "  TOR RELAY REPORT: " ++ (get_relay_report t host c).nickname.getD "Unknown",
       "  Generated: " ++ strftime t "%Y-%m-%d %H:%M:%S",
       "  Host: " ++ host,
       eqRule60,
       ""] ∧
    ∃ rest : List String,
      format_report_text (get_relay_report t host c) =
        joinSep "\n" (headerLines (get_relay_report t host c) ++ rest) := by
  have hb : (collectorBody t host c).1.generated = t ∧ (collectorBody t host c).1.hostname = host := by
    unfold collectorBody
    dsimp only
    repeat' split
    all_goals exact ⟨rfl, rfl⟩
  have h12 : (get_relay_report t host c).generated = t ∧ (get_relay_report t host c).hostname = host := by
    unfold get_relay_report
    split
    all_goals rename_i heq
    all_goals rw [heq] at hb
    all_goals exact hb
  obtain ⟨h1, h2⟩ := h12
  refine ⟨h1, h2, ?_, ?_⟩
  · rw [headerLines, h1, h2]
  · simp only [format_report_text]
    split
    · exact ⟨warningLines (get_relay_report t host c) ++ errorLines (get_relay_report t host c),
        by rw [List.append_assoc]⟩
    · exact ⟨warningLines (get_relay_report t host c) ++ errorLines (get_relay_report t host c) ++
        statusLines (get_relay_report t host c) ++ identityLines (get_relay_report t host c) ++
        flagLines (get_relay_report t host c) ++ trafficLines (get_relay_report t host c) ++
        footerLines (get_relay_report t host c), by simp [List.append_assoc]⟩

lemma data_append (a b : String) : (a ++ b).data = a.data ++ b.data := rfl

lemma seg_ne (n : Int) (u : String) (hu : u.data ≠ []) : toString n ++ u ≠ "" := by
  intro h
  have hd : (toString n).data ++ u.data = [] := by
    have := congrArg String.data h
    rwa [data_append] at this
  exact hu (List.append_eq_nil.mp hd).2

lemma joinSep_head_data (sep x : String) (l : List String) :
    ∃ tail, (joinSep sep (x :: l)).data = x.data ++ tail := by
  cases l with
  | nil => exact ⟨[], by simp [joinSep]⟩
  | cons y ys =>
      exact ⟨sep.data ++ (joinSep sep (y :: ys)).data,
        by simp [joinSep, data_append, List.append_assoc]⟩

lemma join_ne (x : String) (l : List String) (hx : x ≠ "") : joinSep " " (x :: l) ≠ "" := by
  obtain ⟨tail, ht⟩ := joinSep_head_data " " x l
  intro h
  have hd : x.data ++ tail = [] := by
    have := congrArg String.data h
    rwa [ht] at this
  exact hx (by
    have hxd : x.data = [] := (List.append_eq_nil.mp hd).1
    cases x with
    | mk d =>
        simp only at hxd
        rw [hxd])

/-- C6: for every non-negative number of seconds, `format_duration`
returns a non-empty string assembled from the day/hour/minute/second
breakdown, where the day, hour and minute segments appear exactly when
their values are nonzero, the seconds segment appears when its value is
nonzero or all other segments are absent, and an input of 0 renders
exactly "0s". -/
theorem C6_theorem :
    (∀ s : Int, 0 ≤ s →
      format_duration s ≠ "" ∧
      format_duration s = joinSep " "
        ((if s.fdiv 86400 > 0 then [toString (s.fdiv 86400) ++ "d"] else []) ++
         (if (s.fmod 86400).fdiv 3600 > 0 then [toString ((s.fmod 86400).fdiv 3600) ++ "h"] else []) ++
         (if ((s.fmod 86400).fmod 3600).fdiv 60 > 0 then
            [toString (((s.fmod 86400).fmod 3600).fdiv 60) ++ "m"] else []) ++
         (if ((s.fmod 86400).fmod 3600).fmod 60 > 0 ∨
             (¬ s.fdiv 86400 > 0 ∧ ¬ (s.fmod 86400).fdiv 3600 > 0 ∧
              ¬ ((s.fmod 86400).fmod 3600).fdiv 60 > 0) then
            [toString (((s.fmod 86400).fmod 3600).fmod 60) ++ "s"] else []))) ∧
    format_duration 0 = "0s" := by
  refine ⟨fun s _ => ⟨?_, ?_⟩, by decide⟩
  · by_cases hd : s.fdiv 86400 > 0 <;>
      by_cases hh : (s.fmod 86400).fdiv 3600 > 0 <;>
      by_cases hm : ((s.fmod 86400).fmod 3600).fdiv 60 > 0 <;>
      by_cases hs : ((s.fmod 86400).fmod 3600).fmod 60 > 0 <;>
      simp [format_duration, hd, hh, hm, hs] <;>
      exact join_ne _ _ (seg_ne _ _ (by decide))
  · by_cases hd : s.fdiv 86400 > 0 <;>
      by_cases hh : (s.fmod 86400).fdiv 3600 > 0 <;>
      by_cases hm : ((s.fmod 86400).fmod 3600).fdiv 60 > 0 <;>
      simp [format_duration, hd, hh, hm]

/-- C6 witness: 3661 seconds render as a non-empty duration (indeed
"1h 1m 1s"). -/
theorem C6_witness : format_duration 3661 ≠ "" :=
  (C6_theorem.1 3661 (by decide)).1

lemma digitChar_isDigit (d : Nat) (h : d < 10) : (digitChar d).isDigit = true := by
  interval_cases d <;> decide

lemma str_append_assoc (a b c : String) : a ++ b ++ c = a ++ (b ++ c) := by
  cases a with | mk da =>
  cases b with | mk db =>
  cases c with | mk dc =>
  exact congrArg String.mk (List.append_assoc da db dc)

lemma formatTwoDec_shape (q : ℚ) :
    ∃ (ip : String) (d1 d2 : Char),
      formatTwoDec q = ip ++ "." ++ String.mk [d1, d2] ∧
      d1.isDigit = true ∧ d2.isDigit = true := by
  refine ⟨(if round (q * 100) < 0 then "-" else "") ++ toString ((round (q * 100)).natAbs / 100),
    digitChar ((round (q * 100)).natAbs % 100 / 10),
    digitChar ((round (q * 100)).natAbs % 100 % 10), rfl, ?_, ?_⟩
  · exact digitChar_isDigit _ (by omega)
  · exact digitChar_isDigit _ (by omega)

/-- C7: for every byte count, `format_bytes` renders the value — scaled
by the chosen power of 1024 and printed with exactly two decimal places —
in the smallest unit of B, KB, MB, GB, TB whose scaled absolute magnitude
is below 1024, and in PB regardless of magnitude when no such unit
exists. -/
theorem C7_theorem (q : ℚ) :
    ∃ k : Fin 6,
      format_bytes q =
        formatTwoDec (q / 1024 ^ (k : ℕ)) ++ " " ++ ["B", "KB", "MB", "GB", "TB", "PB"].get k ∧
      (∃ (ip : String) (d1 d2 : Char),
        formatTwoDec (q / 1024 ^ (k : ℕ)) = ip ++ "." ++ String.mk [d1, d2] ∧
        d1.isDigit = true ∧ d2.isDigit = true) ∧
      (∀ j : ℕ, j < (k : ℕ) → 1024 ≤ |q| / 1024 ^ j) ∧
      ((k : ℕ) < 5 → |q| / 1024 ^ (k : ℕ) < 1024) := by
  have habs : ∀ x : ℚ, |x / 1024| = |x| / 1024 := fun x => by
    rw [abs_div]
    norm_num
  have g2 : q / 1024 / 1024 = q / 1024 ^ 2 := by rw [div_div]; norm_num
  have g3 : q / 1024 / 1024 / 1024 = q / 1024 ^ 3 := by rw [div_div, div_div]; norm_num
  have g4 : q / 1024 / 1024 / 1024 / 1024 = q / 1024 ^ 4 := by
    rw [div_div, div_div, div_div]; norm_num
  have g5 : q / 1024 / 1024 / 1024 / 1024 / 1024 = q / 1024 ^ 5 := by
    rw [div_div, div_div, div_div, div_div]; norm_num
  have e0 : |q| = |q| / 1024 ^ 0 := by rw [pow_zero, div_one]
  have e1 : |q / 1024| = |q| / 1024 ^ 1 := by rw [habs, pow_one]
  have e2 : |q / 1024 / 1024| = |q| / 1024 ^ 2 := by rw [habs, habs, div_div]; norm_num
  have e3 : |q / 1024 / 1024 / 1024| = |q| / 1024 ^ 3 := by
    rw [habs, habs, habs, div_div, div_div]; norm_num
  have e4 : |q / 1024 / 1024 / 1024 / 1024| = |q| / 1024 ^ 4 := by
    rw [habs, habs, habs, habs, div_div, div_div, div_div]; norm_num
  by_cases h0 : |q| < 1024
  · refine ⟨⟨0, by omega⟩, ?_, formatTwoDec_shape _,
      fun j hj => absurd (show j < 0 from hj) (Nat.not_lt_zero j), fun _ => ?_⟩
    · show format_bytes q = formatTwoDec (q / 1024 ^ 0) ++ " " ++ "B"
      rw [show q / 1024 ^ 0 = q by rw [pow_zero, div_one]]
      simp [format_bytes, format_bytes_go, h0]
    · show |q| / 1024 ^ 0 < 1024
      rw [← e0]
      exact h0
  by_cases h1 : |q / 1024| < 1024
  · refine ⟨⟨1, by omega⟩, ?_, formatTwoDec_shape _, fun j hj => ?_, fun _ => ?_⟩
    · show format_bytes q = formatTwoDec (q / 1024 ^ 1) ++ " " ++ "KB"
      rw [show q / 1024 ^ 1 = q / 1024 by rw [pow_one]]
      simp [format_bytes, format_bytes_go, h0, h1]
    · have hj1 : j < 1 := hj
      interval_cases j
      · rw [← e0]; exact not_lt.mp h0
    · show |q| / 1024 ^ 1 < 1024
      rw [← e1]
      exact h1
  by_cases h2 : |q / 1024 / 1024| < 1024
  · refine ⟨⟨2, by omega⟩, ?_, formatTwoDec_shape _, fun j hj => ?_, fun _ => ?_⟩
    · show format_bytes q = formatTwoDec (q / 1024 ^ 2) ++ " " ++ "MB"
      rw [← g2]
      simp [format_bytes, format_bytes_go, h0, h1, h2]
    · have hj1 : j < 2 := hj
      interval_cases j
      · rw [← e0]; exact not_lt.mp h0
      · rw [← e1]; exact not_lt.mp h1
    · show |q| / 1024 ^ 2 < 1024
      rw [← e2]
      exact h2
  by_cases h3 : |q / 1024 / 1024 / 1024| < 1024
  · refine ⟨⟨3, by omega⟩, ?_, formatTwoDec_shape _, fun j hj => ?_, fun _ => ?_⟩
    · show format_bytes q = formatTwoDec (q / 1024 ^ 3) ++ " " ++ "GB"
      rw [← g3]
      simp [format_bytes, format_bytes_go, h0, h1, h2, h3]
    · have hj1 : j < 3 := hj
      interval_cases j
      · rw [← e0]; exact not_lt.mp h0
      · rw [← e1]; exact not_lt.mp h1
      · rw [← e2]; exact not_lt.mp h2
    · show |q| / 1024 ^ 3 < 1024
      rw [← e3]
      exact h3
  by_cases h4 : |q / 1024 / 1024 / 1024 / 1024| < 1024
  · refine ⟨⟨4, by omega⟩, ?_, formatTwoDec_shape _, fun j hj => ?_, fun _ => ?_⟩
    · show format_bytes q = formatTwoDec (q / 1024 ^ 4) ++ " " ++ "TB"
      rw [← g4]
      simp [format_bytes, format_bytes_go, h0, h1, h2, h3, h4]
    · have hj1 : j < 4 := hj
      interval_cases j
      · rw [← e0]; exact not_lt.mp h0
      · rw [← e1]; exact not_lt.mp h1
      · rw [← e2]; exact not_lt.mp h2
      · rw [← e3]; exact not_lt.mp h3
    · show |q| / 1024 ^ 4 < 1024
      rw [← e4]
      exact h4
  · refine ⟨⟨5, by omega⟩, ?_, formatTwoDec_shape _, fun j hj => ?_,
      fun hlt => absurd (show (5 : ℕ) < 5 from hlt) (by omega)⟩
    · show format_bytes q = formatTwoDec (q / 1024 ^ 5) ++ " " ++ "PB"
      rw [← g5]
      simp [format_bytes, format_bytes_go, h0, h1, h2, h3, h4]
      rw [str_append_assoc]
      rfl
    · have hj1 : j < 5 := hj
      interval_cases j
      · rw [← e0]; exact not_lt.mp h0
      · rw [← e1]; exact not_lt.mp h1
      · rw [← e2]; exact not_lt.mp h2
      · rw [← e3]; exact not_lt.mp h3
      · rw [← e4]; exact not_lt.mp h4

/-- C7 witness: the theorem applied at the concrete byte count 2048
(which renders as "2.00 KB"). -/
theorem C7_witness :
    ∃ k : Fin 6,
      format_bytes 2048 =
        formatTwoDec (2048 / 1024 ^ (k : ℕ)) ++ " " ++ ["B", "KB", "MB", "GB", "TB", "PB"].get k ∧
      (∃ (ip : String) (d1 d2 : Char),
        formatTwoDec (2048 / 1024 ^ (k : ℕ)) = ip ++ "." ++ String.mk [d1, d2] ∧
        d1.isDigit = true ∧ d2.isDigit = true) ∧
      (∀ j : ℕ, j < (k : ℕ) → 1024 ≤ |(2048 : ℚ)| / 1024 ^ j) ∧
      ((k : ℕ) < 5 → |(2048 : ℚ)| / 1024 ^ (k : ℕ) < 1024) :=
  C7_theorem 2048
